import Mathlib

/-!
Verification of the TypeScript valid-path analyzer.

This file gives a shallow embedding of the two core source files of the
repository, ConditionEvaluator and ProgramAnalyzer, and settles the frozen
claims about them.

Embedding conventions:
- SyntaxKind mirrors the TypeScript compiler's node-kind tags that the two
  jump tables key on.  In the TypeScript API, GreaterThanEqualsToken is the
  comparison operator of a >= b, while EqualsGreaterThanToken is the arrow
  of an arrow function (=>); the two are distinct kinds, and a
  BinaryExpression produced by the parser for a >= b carries
  GreaterThanEqualsToken as its operatorToken kind.
- TsNode is the fragment of the TypeScript AST that the visitors touch.
  Since node.getChildren() is supplied by the external parser, list-shaped
  nodes (Block, SyntaxList, SourceFile, ...) carry their children as data.
- JavaScript functions that fall off the end return undefined; visitors are
  therefore total and return JsVal.undefinedValue (or an empty Visit) in those cases.
- console.warn calls (gated by the WARNING flag, which is true in both
  files) are modelled as structured Warning values recording the same data
  as the corresponding warn(...) call site; console.log noise is dropped.
-/

namespace ValidPath

/-- Node-kind tags of the TypeScript compiler API used by the two visitors.
OpenBraceToken, CloseBraceToken, SemicolonToken, AmpersandToken and
ExclamationEqualsToken appear in parser output but in neither jump table. -/
inductive SyntaxKind where
  | Identifier
  | BinaryExpression
  | NonNullExpression
  | BarBarToken
  | AmpersandAmpersandToken
  | LessThanToken
  | LessThanEqualsToken
  | GreaterThanToken
  | GreaterThanEqualsToken
  | EqualsGreaterThanToken
  | EqualsEqualsToken
  | ExclamationEqualsToken
  | EqualsToken
  | AmpersandToken
  | SemicolonToken
  | OpenBraceToken
  | CloseBraceToken
  | ArrowFunction
  | Block
  | ClassDeclaration
  | ConditionalExpression
  | ExpressionStatement
  | FirstStatement
  | FunctionDeclaration
  | IfStatement
  | NumericLiteral
  | Parameter
  | PropertyAccessExpression
  | PropertyDeclaration
  | StringLiteral
  | SourceFile
  | SyntaxList
  | ThisKeyword
  | VariableDeclaration
  | VariableDeclarationList
  | ReturnStatement
  deriving DecidableEq, Repr

/-- Line range of an if statement, as computed by getLineNumbers from the
source file (the utility lives outside the analyzed files; the range is
carried as data on the parsed node). -/
structure LineNumbers where
  startLine : Nat
  endLine : Nat
  deriving DecidableEq, Repr

/-- The fragment of the TypeScript AST visited by the source.  Structured
kinds get their own constructor; bare tokens and keywords are the
constructor other, carrying their kind and source text. -/
inductive TsNode where
  | identifier (text : String)
  | numericLiteral (text : String)
  | stringLiteral (text : String)
  | thisKeyword
  | binaryExpr (left : TsNode) (opKind : SyntaxKind) (opText : String) (right : TsNode)
  | nonNull (expr : TsNode)
  | conditionalExpr (cond whenTrue whenFalse : TsNode)
  | ifStmt (cond : TsNode) (thenStmt : TsNode) (elseStmt : Option TsNode) (lines : LineNumbers)
  | block (children : List TsNode)
  | syntaxList (children : List TsNode)
  | sourceFile (statements : List TsNode)
  | functionDecl (params : List TsNode) (body : Option TsNode)
  | arrowFunction (params : List TsNode) (body : TsNode)
  | classDecl (members : List TsNode)
  | propertyDecl (init : Option TsNode)
  | parameter (name : String) (declType : String)
  | expressionStatement (expr : TsNode)
  | firstStatement (children : List TsNode)
  | varDeclList (decls : List TsNode)
  | varDecl (name : String) (declType : Option String) (init : Option TsNode)
  | propertyAccess (expr : TsNode) (name : TsNode)
  | returnStmt (expr : Option TsNode)
  | other (kind : SyntaxKind) (text : String)

/-- node.kind of the TypeScript API. -/
def TsNode.kind : TsNode → SyntaxKind
  | .identifier _ => .Identifier
  | .numericLiteral _ => .NumericLiteral
  | .stringLiteral _ => .StringLiteral
  | .thisKeyword => .ThisKeyword
  | .binaryExpr _ _ _ _ => .BinaryExpression
  | .nonNull _ => .NonNullExpression
  | .conditionalExpr _ _ _ => .ConditionalExpression
  | .ifStmt _ _ _ _ => .IfStatement
  | .block _ => .Block
  | .syntaxList _ => .SyntaxList
  | .sourceFile _ => .SourceFile
  | .functionDecl _ _ => .FunctionDeclaration
  | .arrowFunction _ _ => .ArrowFunction
  | .classDecl _ => .ClassDeclaration
  | .propertyDecl _ => .PropertyDeclaration
  | .parameter _ _ => .Parameter
  | .expressionStatement _ => .ExpressionStatement
  | .firstStatement _ => .FirstStatement
  | .varDeclList _ => .VariableDeclarationList
  | .varDecl _ _ _ => .VariableDeclaration
  | .propertyAccess _ _ => .PropertyAccessExpression
  | .returnStmt _ => .ReturnStatement
  | .other k _ => k

/-- node.getText() of the TypeScript API: the source text of the node.  It
is rendered for the expression-shaped nodes the visitors read text from
(identifiers, literals, operator tokens, binary and property accesses);
statement-shaped nodes render as an empty string, which no claim depends
on (their text is only echoed into log and warning messages). -/
def TsNode.getText : TsNode → String
  | .identifier s => s
  | .numericLiteral s => s
  | .stringLiteral s => s
  | .thisKeyword => "this"
  | .binaryExpr l _ t r => l.getText ++ " " ++ t ++ " " ++ r.getText
  | .nonNull e => e.getText ++ "!"
  | .propertyAccess e n => e.getText ++ "." ++ n.getText
  | .other _ t => t
  | _ => ""

/-- One warn(...) call.  Each constructor records the arguments of the
corresponding call site: the unspecified-condition and unspecified-node
warnings log node.getText() and the node's kind, the unspecified-operator
warning logs operatorToken.getText() and the kind of the enclosing
BinaryExpression node. -/
inductive Warning where
  | unspecifiedCondition (text : String) (kind : SyntaxKind)
  | unspecifiedOperator (opText : String) (kind : SyntaxKind)
  | unspecifiedNode (text : String) (kind : SyntaxKind)
  deriving DecidableEq, Repr

/-- A JavaScript value flowing out of the ConditionEvaluator visitors:
either undefined, or an SMT expression built through the z3 context.
sym is an expression bound in pathParams; intVal is an SMT integer value
(named by the specification's translation table; the evaluator as written
never constructs one); the binary constructors are the GT/GE/LT/LE/Eq/And
calls on the z3 context. -/
inductive JsVal where
  | undefinedValue
  | sym (name : String)
  | intVal (n : Int)
  | gtE (a b : JsVal)
  | geE (a b : JsVal)
  | ltE (a b : JsVal)
  | leE (a b : JsVal)
  | eqE (a b : JsVal)
  | andE (a b : JsVal)
  deriving DecidableEq, Repr

/-- JavaScript property access this.pathParams[k]: the bound value when the
key is present, undefined otherwise. -/
def lookupJs (ps : List (String × JsVal)) (k : String) : JsVal :=
  match ps.lookup k with
  | some v => v
  | none => .undefinedValue

/-- The keys of the ConditionEvaluator constructor's jumpTable. -/
def condJumpTableKinds : List SyntaxKind :=
  [.Identifier, .BinaryExpression, .NonNullExpression, .BarBarToken,
   .AmpersandAmpersandToken, .LessThanToken, .LessThanEqualsToken,
   .GreaterThanToken, .EqualsGreaterThanToken, .EqualsEqualsToken]

/-- ConditionEvaluator.visitIdentifier: returns
this.pathParams[node.getText().toString()].  No check and no error when
the key is absent: the property access then yields undefined. -/
def visitIdentifierCE (ps : List (String × JsVal)) (node : TsNode) : JsVal :=
  lookupJs ps node.getText

/-- ConditionEvaluator.visitBinaryExpression: dispatches on
node.operatorToken.kind through the jumpTable, calling the handler with
(context, node.left, node.operatorToken, node.right); otherwise warns
"found an unspecified operator" (logging ts.SyntaxKind[node.kind], which
at this call site is always BinaryExpression) and returns undefined.
The comparison handlers call visitIdentifier on both operand nodes,
whatever their kinds; the BarBarToken and AmpersandAmpersandToken handlers
only log and so return undefined.  The Identifier arm models visitIdentifier
receiving the left operand with the extra arguments ignored; the
BinaryExpression and NonNullExpression keys can never be the kind of an
operatorToken produced by the parser, so those arms are unreachable. -/
def visitBinaryExpressionCE (ps : List (String × JsVal)) (l : TsNode)
    (k : SyntaxKind) (t : String) (r : TsNode) : JsVal × List Warning :=
  if k ∈ condJumpTableKinds then
    match k with
    | .LessThanToken => (.ltE (visitIdentifierCE ps l) (visitIdentifierCE ps r), [])
    | .LessThanEqualsToken => (.leE (visitIdentifierCE ps l) (visitIdentifierCE ps r), [])
    | .GreaterThanToken => (.gtE (visitIdentifierCE ps l) (visitIdentifierCE ps r), [])
    | .EqualsGreaterThanToken => (.geE (visitIdentifierCE ps l) (visitIdentifierCE ps r), [])
    | .EqualsEqualsToken => (.eqE (visitIdentifierCE ps l) (visitIdentifierCE ps r), [])
    | .BarBarToken => (.undefinedValue, [])
    | .AmpersandAmpersandToken => (.undefinedValue, [])
    | .Identifier => (visitIdentifierCE ps l, [])
    | _ => (.undefinedValue, [])
  else
    (.undefinedValue, [.unspecifiedOperator t .BinaryExpression])

/-- ConditionEvaluator.visitCondition: dispatches on node.kind through the
jumpTable; otherwise warns "found an unspecified condition" and returns
undefined.  The only structured kinds in the table are Identifier,
BinaryExpression and NonNullExpression (whose handler only logs); the
token-kind entries, were a bare token ever passed as a condition, reach
handlers that only log. -/
def visitCondition (ps : List (String × JsVal)) (node : TsNode) : JsVal × List Warning :=
  if node.kind ∈ condJumpTableKinds then
    match node with
    | .binaryExpr l k t r => visitBinaryExpressionCE ps l k t r
    | n =>
      match n.kind with
      | .Identifier => (visitIdentifierCE ps n, [])
      | _ => (.undefinedValue, [])
  else
    (.undefinedValue, [.unspecifiedCondition node.getText node.kind])

/-- A node of the context tree built by ProgramAnalyzer.  ContextAssignment
carries setVarName / setExpression data (the expression is absent for an
initializer-less declaration).  The ContextConditional class itself is not
under src/; its shape is modelled from the spec: it carries the condition
set by setCondition, the line range set by setLineNumbers, and routes
addChild into a true-branch or false-branch child list according to the
transient setVisitingTrue / setVisitingFalse flag; hasElse records whether
setVisitingFalse was ever called (an else branch existed); varAdds records
addVar calls made on it while its subtrees were built. -/
inductive Ctx where
  | assignment (varName : String) (expr : Option TsNode)
  | conditional (cond : TsNode) (lines : LineNumbers)
      (trueChildren falseChildren : List Ctx) (hasElse : Bool)
      (varAdds : List (String × String))

/-- The effect of visiting one AST node under a current context: the
context children appended to it by addChild, the symbol-table entries
added to it by addVar, and the warnings emitted, each in call order. -/
structure Visit where
  ctxs : List Ctx
  vars : List (String × String)
  warns : List Warning

/-- No effect: the visit only logged. -/
def Visit.empty : Visit := ⟨[], [], []⟩

/-- Sequencing of two visits on the same current context. -/
def Visit.app (a b : Visit) : Visit :=
  ⟨a.ctxs ++ b.ctxs, a.vars ++ b.vars, a.warns ++ b.warns⟩

/-- The keys of the ProgramAnalyzer constructor's jumpTable.  Note that it
binds GreaterThanEqualsToken (the comparison >=), unlike the
ConditionEvaluator table which binds EqualsGreaterThanToken (the arrow). -/
def analyzerJumpTableKinds : List SyntaxKind :=
  [.ArrowFunction, .BinaryExpression, .Block, .ClassDeclaration,
   .ConditionalExpression, .EqualsToken, .ExpressionStatement,
   .FirstStatement, .FunctionDeclaration, .GreaterThanToken,
   .GreaterThanEqualsToken, .Identifier, .IfStatement, .LessThanToken,
   .LessThanEqualsToken, .NumericLiteral, .Parameter,
   .PropertyAccessExpression, .PropertyDeclaration, .StringLiteral,
   .SourceFile, .SyntaxList, .ThisKeyword, .VariableDeclaration,
   .VariableDeclarationList, .ReturnStatement]

/-- ProgramAnalyzer.visitNode applied to a bare token node of kind k and
text t (as happens for this.visitNode(context, node.operatorToken)): every
token kind present in the jumpTable reaches a handler that only logs; an
absent kind is warned about and skipped.  The lemma visitTok_eq_visitNode
below identifies this with visitNode on the token node. -/
def visitTok (k : SyntaxKind) (t : String) : Visit :=
  if k ∈ analyzerJumpTableKinds then Visit.empty
  else ⟨[], [], [.unspecifiedNode t k]⟩

mutual

/-- ProgramAnalyzer.visitNode and the handlers it dispatches to through the
jumpTable; a node whose kind is not a key is warned about ("found an
unspecified node") and skipped.  Handler by handler:
visitBinaryExpression appends one ContextAssignment when the operator
token's text is "=" (without recursing) and otherwise recurses into left,
operator token and right; visitIfStatement appends one ContextConditional,
recurses into the condition and then-statement while visiting-true, and
into the else-statement (if present) while visiting-false;
visitVariableDeclaration calls addVar only when node.type is present,
always appends a ContextAssignment carrying the (possibly absent)
initializer, then recurses into node.name (an Identifier, whose handler
only logs, inlined as Visit.empty) and into the initializer when present;
visitParameter calls addVar; Block, SyntaxList, SourceFile, FirstStatement
and ClassDeclaration map over their children, FunctionDeclaration and
ArrowFunction over parameters then body, ExpressionStatement,
PropertyDeclaration and PropertyAccessExpression over their parts; the
remaining handlers (identifiers, literals, tokens, this, conditional
expressions, return statements) only log. -/
def visitNode (n : TsNode) : Visit :=
  if n.kind ∈ analyzerJumpTableKinds then
    match n with
    | .binaryExpr l k t r =>
      if t = "=" then ⟨[.assignment l.getText (some r)], [], []⟩
      else (visitNode l).app ((visitTok k t).app (visitNode r))
    | .ifStmt c th el lines =>
      let tv := (visitNode c).app (visitNode th)
      let ev := visitOpt el
      ⟨[.conditional c lines tv.ctxs ev.ctxs el.isSome (tv.vars ++ ev.vars)],
       [], tv.warns ++ ev.warns⟩
    | .varDecl nm ty init =>
      let tvars : List (String × String) :=
        match ty with
        | some t => [(nm, t)]
        | none => []
      let iv := visitOpt init
      ⟨.assignment nm init :: iv.ctxs, tvars ++ iv.vars, iv.warns⟩
    | .parameter nm ty => ⟨[], [(nm, ty)], []⟩
    | .block cs => visitNodes cs
    | .syntaxList cs => visitNodes cs
    | .sourceFile stmts => visitNodes stmts
    | .firstStatement cs => visitNodes cs
    | .varDeclList ds => visitNodes ds
    | .classDecl ms => visitNodes ms
    | .functionDecl ps b => (visitNodes ps).app (visitOpt b)
    | .arrowFunction ps b => (visitNodes ps).app (visitNode b)
    | .propertyDecl i => visitOpt i
    | .expressionStatement e => visitNode e
    | .propertyAccess e nm => (visitNode e).app (visitNode nm)
    | .identifier _ => Visit.empty
    | .numericLiteral _ => Visit.empty
    | .stringLiteral _ => Visit.empty
    | .thisKeyword => Visit.empty
    | .conditionalExpr _ _ _ => Visit.empty
    | .returnStmt _ => Visit.empty
    | .nonNull _ => Visit.empty
    | .other _ _ => Visit.empty
  else
    ⟨[], [], [.unspecifiedNode n.getText n.kind]⟩

/-- forEach over a child list, sequencing the visits. -/
def visitNodes : List TsNode → Visit
  | [] => Visit.empty
  | x :: xs => (visitNode x).app (visitNodes xs)

/-- Visit an optional child (the if-guards around node.elseStatement,
node.initializer and node.body in the source). -/
def visitOpt : Option TsNode → Visit
  | some x => visitNode x
  | none => Visit.empty

end

/-- Visiting a bare token node through visitNode agrees with visitTok. -/
theorem visitTok_eq_visitNode (k : SyntaxKind) (t : String) :
    visitTok k t = visitNode (.other k t) := by
  rw [visitNode.eq_def, visitTok]
  rfl

/-- One entry of an enumerated Path: an assignment context or a
polarity-tagged branch predicate. -/
inductive PathItem where
  | assign (varName : String) (expr : Option TsNode)
  | branch (cond : TsNode) (lines : LineNumbers) (polarity : Bool)

mutual

/-- Modelled from the spec: the path enumerator (ContextPathsEvaluator) is
not under src/.  The enumeration is a depth-first traversal that at a
Conditional yields every true-polarity continuation and then every
false-polarity continuation; at non-Conditional contexts it descends
through children in insertion order, and the output order is the DFS
pre-order.  An if without else also yields the false continuation — the
empty else is a reachable path carrying only the negated predicate — as
the spec's tie-break rule of section 4.C, the boundary behavior of
section 8 and scenario S2 (three paths for a then-only nested if) all
state; the lone sentence of section 4.D saying one continuation when no
else was recorded contradicts those three places and is not followed. -/
def pathsThrough : Ctx → List (List PathItem)
  | .assignment v e => [[.assign v e]]
  | .conditional c ln tcs fcs _ _ =>
    (pathsSeq tcs).map (fun p => .branch c ln true :: p)
      ++ (pathsSeq fcs).map (fun p => .branch c ln false :: p)

/-- Modelled from the spec: paths through a sibling list of contexts, one
per combination of branch choices, preserving insertion order. -/
def pathsSeq : List Ctx → List (List PathItem)
  | [] => [[]]
  | c :: cs => (pathsThrough c).flatMap (fun p => (pathsSeq cs).map (fun q => p ++ q))

end

/-- Whether a context node is a Conditional. -/
def ctxIsCond : Ctx → Bool
  | .conditional _ _ _ _ _ _ => true
  | .assignment _ _ => false

/-- A sibling list of assignment-only contexts carries exactly one path
through it. -/
theorem pathsSeq_of_assignments (cs : List Ctx)
    (h : cs.all (fun c => !ctxIsCond c) = true) : ∃ p, pathsSeq cs = [p] := by
  induction cs with
  | nil => exact ⟨[], rfl⟩
  | cons c cs ih =>
    rw [List.all_cons, Bool.and_eq_true] at h
    obtain ⟨p, hp⟩ := ih h.2
    cases c with
    | assignment v e =>
      exact ⟨.assign v e :: p, by simp [pathsSeq, pathsThrough, hp]⟩
    | conditional c ln tcs fcs he va => simp [ctxIsCond] at h

mutual

/-- Every context node carries at least one path through it. -/
theorem pathsThrough_ne_nil (c : Ctx) : pathsThrough c ≠ [] := by
  cases c with
  | assignment v e => simp [pathsThrough]
  | conditional cond ln tcs fcs he va =>
    have ht := pathsSeq_ne_nil tcs
    rw [pathsThrough]
    intro h
    exact ht (List.map_eq_nil_iff.mp (List.append_eq_nil.mp h).1)

/-- Every sibling list of contexts carries at least one path through it. -/
theorem pathsSeq_ne_nil (cs : List Ctx) : pathsSeq cs ≠ [] := by
  cases cs with
  | nil => simp [pathsSeq]
  | cons c cs =>
    obtain ⟨p, hp⟩ := List.exists_mem_of_ne_nil _ (pathsThrough_ne_nil c)
    obtain ⟨q, hq⟩ := List.exists_mem_of_ne_nil _ (pathsSeq_ne_nil cs)
    rw [pathsSeq]
    exact List.ne_nil_of_mem (List.mem_flatMap.mpr ⟨p, hp, List.mem_map_of_mem _ hq⟩)

end

/-- Modelled from the spec: the SMT driver (ContextToZ3) is not under
src/.  Section 4.G conjoins the per-path conditions and checks their
satisfiability under an integer valuation of the declared symbols; asInt
reads a value in integer position.  An undefined operand — which the
evaluator does produce whenever a pathParams lookup misses — is read as
the integer 0; the live z3 binding would instead fail outright on an
undefined argument, and under neither reading is a comparison over such
an operand a sentinel treated as true.  The remaining sort mismatches
default to 0 and are never produced by well-sorted input. -/
def asInt (tau : String → Int) : JsVal → Int
  | .sym s => tau s
  | .intVal n => n
  | _ => 0

/-- Modelled from the spec: truth of one condition under a boolean
valuation sigma and integer valuation tau of the symbols.  Per section
4.F, the sentinel produced for an unrecognized construct (undefined) is
treated as true, so unknown constructs never cause spurious
unreachability; the intVal-in-boolean-position case is a sort mismatch
never produced by well-sorted input. -/
def asBool (sigma : String → Bool) (tau : String → Int) : JsVal → Bool
  | .undefinedValue => true
  | .sym s => sigma s
  | .intVal _ => false
  | .gtE a b => decide (asInt tau a > asInt tau b)
  | .geE a b => decide (asInt tau a ≥ asInt tau b)
  | .ltE a b => decide (asInt tau a < asInt tau b)
  | .leE a b => decide (asInt tau a ≤ asInt tau b)
  | .eqE a b => decide (asInt tau a = asInt tau b)
  | .andE a b => asBool sigma tau a && asBool sigma tau b

/-- Modelled from the spec: a path's conjoined conditions hold under the
valuations; the path is reachable iff some valuations make this true. -/
def pathAllTrue (sigma : String → Bool) (tau : String → Int)
    (conds : List JsVal) : Bool :=
  conds.all (asBool sigma tau)

/-- A PathNote as resolved by analyze (explanation omitted; no claim reads
it). -/
structure PathNote where
  startLine : Nat
  endLine : Nat
  reachable : Bool
  deriving DecidableEq, Repr

/-- How the Promise returned by ProgramAnalyzer.analyze settles.  A
JavaScript promise settles once: the first resolve or reject wins and
every later call is ignored. -/
inductive Settled where
  | resolved (notes : List PathNote)
  | rejected (err : String)
  deriving DecidableEq, Repr

/-- The pipeline stages whose code appears in the body of analyze. -/
inductive Stage where
  | precheck
  | contextTree
  | pathEnumeration
  | statementProcessing
  | smtCheck
  deriving DecidableEq, Repr

/-- The error string built at the precheck reject site in analyze. -/
def precheckMessage (diagnostics : List String) : String :=
  "Analysis cannot be completed as source file does not meet precheck requirements: "
    ++ String.intercalate " " diagnostics

/-- JSON.stringify of an error envelope (no escaping arises for the
messages involved): the braces are the literal characters of the JSON
text. -/
def errorEnvelope (msg : String) : String :=
  "\x7b\"error\":\"" ++ msg ++ "\"\x7d"

/-- The observable outcome of one call to ProgramAnalyzer.analyze: how its
promise settled, the context tree construction that ran, and the stages
whose code executed. -/
structure AnalyzeRun where
  settled : Settled
  contextBuild : Visit
  stagesRun : List Stage

/-- ProgramAnalyzer.analyze.  The validator (TypescriptValidator, outside
the analyzed files) supplies the diagnostics list; the downstream
ContextToZ3.checkPaths outcome is abstracted as smtOutcome.  When the
diagnostics list is non-empty the executor calls reject with the
stringified precheck envelope, but there is no return after that call, so
execution falls through: getLastLineNumber, the visitNode tree
construction, the path evaluator, the statement processor and the
checkPaths call all still run, and only the promise-settles-once rule
keeps their resolve or reject from being observed. -/
def analyze (sourceFile : TsNode) (diagnostics : List String)
    (smtOutcome : Except String (List PathNote)) : AnalyzeRun :=
  let firstSettle : Option Settled :=
    if diagnostics.length > 0 then
      some (.rejected (errorEnvelope (precheckMessage diagnostics)))
    else
      none
  let build := visitNode sourceFile
  let settled :=
    match firstSettle with
    | some s => s
    | none =>
      match smtOutcome with
      | .ok notes => .resolved notes
      | .error e => .rejected (errorEnvelope e)
  { settled := settled
    contextBuild := build
    stagesRun := [.precheck, .contextTree, .pathEnumeration,
                  .statementProcessing, .smtCheck] }

/-- Claim C1: the claim says a non-empty diagnostic list makes the pipeline
halt with the precheck error and run no later stage.  The code does reject
the promise with the joined-diagnostics envelope, but the reject call is
not followed by a return, so the context-tree construction and the
downstream stages still execute; this theorem evaluates analyze at a
failing input (one diagnostic) and shows the rejected settlement together
with the stages that ran anyway, including a context build that produced a
context node. -/
theorem analyze_precheck_rejects_but_pipeline_continues :
    (analyze
        (.sourceFile [.ifStmt (.identifier "a") (.returnStmt none) none ⟨1, 1⟩])
        ["Unexpected token"] (.ok [])).settled
      = .rejected (errorEnvelope (precheckMessage ["Unexpected token"])) ∧
    (analyze
        (.sourceFile [.ifStmt (.identifier "a") (.returnStmt none) none ⟨1, 1⟩])
        ["Unexpected token"] (.ok [])).stagesRun
      = [.precheck, .contextTree, .pathEnumeration, .statementProcessing, .smtCheck] ∧
    (analyze
        (.sourceFile [.ifStmt (.identifier "a") (.returnStmt none) none ⟨1, 1⟩])
        ["Unexpected token"] (.ok [])).contextBuild.ctxs ≠ [] := by
  refine ⟨rfl, rfl, ?_⟩
  intro h
  exact List.cons_ne_nil _ _ h

/-- Claim C2, counterexample: for the identifier z absent from an empty
per-path environment, the Condition Evaluator returns the undefined value
with no warning and raises no error, contrary to the claimed fatal
UnknownSymbol failure. -/
theorem identifier_absent_returns_undefined :
    visitCondition [] (.identifier "z") = (.undefinedValue, []) := rfl

/-- Claim C2 (amended): for a condition that is a single identifier v, the
Condition Evaluator returns the value of the JavaScript property access
pathParams[v] — the bound SMT expression when present and undefined when
absent; no UnknownSymbol error is raised by the evaluator. -/
theorem identifier_eval_is_env_lookup (ps : List (String × JsVal)) (v : String) :
    visitCondition ps (.identifier v) = (lookupJs ps v, []) ∧
    (ps.lookup v = none → visitCondition ps (.identifier v) = (.undefinedValue, [])) := by
  constructor
  · simp [visitCondition, TsNode.kind, condJumpTableKinds, visitIdentifierCE,
      TsNode.getText]
  · intro h
    simp [visitCondition, TsNode.kind, condJumpTableKinds, visitIdentifierCE,
      TsNode.getText, lookupJs, h]

/-- Claim C2 witness: concrete instance of the amended claim at an
environment binding only x and the identifier y. -/
theorem identifier_eval_is_env_lookup_witness :
    visitCondition [("x", .sym "x")] (.identifier "y") = (.undefinedValue, []) :=
  (identifier_eval_is_env_lookup [("x", .sym "x")] "y").2 (by decide)

/-- Claim C3: the claim says a >= b is translated to GE(eval a, eval b) and
that the greater-than-or-equal token is a recognized kind of the
evaluator's dispatch.  In the code the jumpTable keys
SyntaxKind.EqualsGreaterThanToken — the arrow token of arrow functions —
while the operator token of a parsed a >= b is
SyntaxKind.GreaterThanEqualsToken, which is absent from the table; the
handler's own log text ("Got greater than equals token") and the
ProgramAnalyzer table (which binds GreaterThanEqualsToken) show the
comparison was the intent.  Evaluating the condition a >= b with a and b
bound therefore falls into the unrecognized-operator warning branch and
yields undefined instead of GE. -/
theorem ge_condition_falls_to_unrecognized_branch :
    SyntaxKind.EqualsGreaterThanToken ∈ condJumpTableKinds ∧
    SyntaxKind.GreaterThanEqualsToken ∉ condJumpTableKinds ∧
    visitCondition [("a", .sym "a"), ("b", .sym "b")]
        (.binaryExpr (.identifier "a") .GreaterThanEqualsToken ">=" (.identifier "b"))
      = (.undefinedValue, [.unspecifiedOperator ">=" .BinaryExpression]) :=
  ⟨by decide, by decide, rfl⟩

/-- Claim C4, counterexample: for the condition a > 0 with a bound and the
key "0" absent, the right operand is translated to undefined by an
environment lookup of the literal's text, not to the SMT integer value
0. -/
theorem literal_operand_looked_up_not_int :
    visitCondition [("a", .sym "a")]
        (.binaryExpr (.identifier "a") .GreaterThanToken ">" (.numericLiteral "0"))
      = (.gtE (.sym "a") .undefinedValue, []) ∧
    (JsVal.gtE (.sym "a") .undefinedValue, ([] : List Warning))
      ≠ (JsVal.gtE (.sym "a") (.intVal 0), ([] : List Warning)) :=
  ⟨rfl, by decide⟩

/-- Claim C4 (amended): an operand of a comparison that is an integer
literal is translated exactly like an identifier: the comparison handlers
call visitIdentifier on both operand nodes, so the literal's text is
looked up in the per-path environment (undefined when absent); no integer
value is constructed. -/
theorem literal_operand_is_env_lookup :
    (∀ (ps : List (String × JsVal)) (l : TsNode) (s : String),
      visitCondition ps (.binaryExpr l .GreaterThanToken ">" (.numericLiteral s))
        = (.gtE (lookupJs ps l.getText) (lookupJs ps s), [])) ∧
    (∀ (ps : List (String × JsVal)) (l : TsNode) (s : String),
      visitCondition ps (.binaryExpr l .EqualsEqualsToken "==" (.numericLiteral s))
        = (.eqE (lookupJs ps l.getText) (lookupJs ps s), [])) := by
  constructor <;>
    intro ps l s <;>
    simp [visitCondition, visitBinaryExpressionCE, visitIdentifierCE,
      TsNode.kind, TsNode.getText, condJumpTableKinds]

/-- Claim C5, counterexample: for the condition a && b with both operands
bound, the Condition Evaluator returns undefined (with no warning), not
AND(eval a, eval b). -/
theorem and_condition_returns_undefined :
    visitCondition [("a", .sym "a"), ("b", .sym "b")]
        (.binaryExpr (.identifier "a") .AmpersandAmpersandToken "&&" (.identifier "b"))
      = (.undefinedValue, []) ∧
    (JsVal.undefinedValue, ([] : List Warning))
      ≠ (JsVal.andE (.sym "a") (.sym "b"), ([] : List Warning)) :=
  ⟨rfl, by decide⟩

/-- Claim C5 (amended): the && operator token is a recognized kind of the
evaluator's dispatch, but its handler is a stub that only logs: for every
a && b the evaluator returns undefined without a warning, and no AND
expression over the operand translations is built. -/
theorem and_operator_recognized_but_stub
    (ps : List (String × JsVal)) (l r : TsNode) :
    SyntaxKind.AmpersandAmpersandToken ∈ condJumpTableKinds ∧
    visitCondition ps (.binaryExpr l .AmpersandAmpersandToken "&&" r)
      = (.undefinedValue, []) := by
  refine ⟨by decide, ?_⟩
  simp [visitCondition, visitBinaryExpressionCE, TsNode.kind, condJumpTableKinds]

/-- Claim C6, counterexample: the condition a < (b & c) contains the
unrecognized bitwise AmpersandToken, yet the evaluator emits no warning —
the recognized top-level comparison handler resolves the whole right
operand by an environment lookup of its source text, yielding
LT(a, undefined).  That value is not a sentinel treated as true: conjoined
with the SMT form of a > 5 the path's conditions are unsatisfiable under
every valuation, so the path is reported unreachable because of the
unrecognized operator, refuting the claim for conditions that merely
contain one. -/
theorem nested_unrecognized_operator_unreachable :
    SyntaxKind.AmpersandToken ∉ condJumpTableKinds ∧
    visitCondition [("a", .sym "a"), ("b", .sym "b"), ("c", .sym "c")]
        (.binaryExpr (.identifier "a") .LessThanToken "<"
          (.binaryExpr (.identifier "b") .AmpersandToken "&" (.identifier "c")))
      = (.ltE (.sym "a") .undefinedValue, []) ∧
    (∀ (sigma : String → Bool) (tau : String → Int),
      pathAllTrue sigma tau
        [.ltE (.sym "a") .undefinedValue, .gtE (.sym "a") (.intVal 5)] = false) := by
  refine ⟨by decide, rfl, ?_⟩
  intro sigma tau
  simp [pathAllTrue, asBool, asInt]
  omega

/-- Claim C6 (amended): only a condition whose top-level operator is
outside the recognized set produces the non-fatal unspecified-operator
warning and the undefined sentinel, and that sentinel is treated as true
by the per-path check, so it never flips a path to unreachable.  A
condition merely containing an unrecognized operator below a recognized
comparison is translated with no warning at all: the comparison handler
turns the offending operand into an environment lookup of its source
text (undefined whenever that text is not a key), which is an ordinary
comparison operand rather than a treated-as-true sentinel. -/
theorem unrecognized_operator_warns_only_at_top_level :
    SyntaxKind.AmpersandToken ∉ condJumpTableKinds ∧
    (∀ (ps : List (String × JsVal)) (l r : TsNode),
      visitCondition ps (.binaryExpr l .AmpersandToken "&" r)
        = (.undefinedValue, [.unspecifiedOperator "&" .BinaryExpression])) ∧
    (∀ (sigma : String → Bool) (tau : String → Int) (cs : List JsVal),
      pathAllTrue sigma tau (JsVal.undefinedValue :: cs) = pathAllTrue sigma tau cs) ∧
    (∀ (ps : List (String × JsVal)) (l b c : TsNode),
      visitCondition ps
          (.binaryExpr l .LessThanToken "<" (.binaryExpr b .AmpersandToken "&" c))
        = (.ltE (lookupJs ps l.getText)
            (lookupJs ps (TsNode.getText (.binaryExpr b .AmpersandToken "&" c))), [])) := by
  refine ⟨by decide, ?_, ?_, ?_⟩
  · intro ps l r
    simp [visitCondition, visitBinaryExpressionCE, TsNode.kind, condJumpTableKinds]
  · intro sigma tau cs
    simp [pathAllTrue, asBool]
  · intro ps l b c
    simp [visitCondition, visitBinaryExpressionCE, visitIdentifierCE,
      TsNode.kind, condJumpTableKinds]

/-- Claim C7: a binary expression whose operator token has text "=" makes
the Context Tree Builder append exactly one Assignment child carrying the
left-hand side's text and the right-hand-side expression, with no
recursion into either side or the operator; any other operator text adds
no context node and the visit is exactly the sequenced recursion into the
left operand, the operator token and the right operand. -/
theorem binary_equals_appends_assignment_only :
    (∀ (l : TsNode) (k : SyntaxKind) (r : TsNode),
      visitNode (.binaryExpr l k "=" r)
        = ⟨[.assignment l.getText (some r)], [], []⟩) ∧
    (∀ (l : TsNode) (k : SyntaxKind) (t : String) (r : TsNode), t ≠ "=" →
      visitNode (.binaryExpr l k t r)
        = (visitNode l).app ((visitNode (.other k t)).app (visitNode r))) := by
  constructor
  · intro l k r
    rw [visitNode.eq_def]
    simp [TsNode.kind, analyzerJumpTableKinds]
  · intro l k t r h
    rw [visitNode.eq_def]
    simp [TsNode.kind, analyzerJumpTableKinds, h, visitTok_eq_visitNode]

/-- Claim C7 witness: the non-assignment part applied to x < y. -/
theorem binary_equals_appends_assignment_only_witness :
    visitNode (.binaryExpr (.identifier "x") .LessThanToken "<" (.identifier "y"))
      = (visitNode (.identifier "x")).app
          ((visitNode (.other .LessThanToken "<")).app (visitNode (.identifier "y"))) :=
  binary_equals_appends_assignment_only.2 _ _ _ _ (by decide)

/-- Claim C8, counterexample: an if with both branches whose then-branch
holds a nested if with both branches yields a Conditional context through
which the enumerator emits three paths, not the claimed exactly two
(outer-true with inner-true, outer-true with inner-false, then
outer-false). -/
theorem nested_conditional_three_paths :
    (visitNode (.ifStmt (.identifier "c")
        (.ifStmt (.identifier "d") (.returnStmt none) (some (.returnStmt none)) ⟨2, 2⟩)
        (some (.returnStmt none)) ⟨1, 3⟩)).ctxs
      = [.conditional (.identifier "c") ⟨1, 3⟩
          [.conditional (.identifier "d") ⟨2, 2⟩ [] [] true []] [] true []] ∧
    (pathsThrough (.conditional (.identifier "c") ⟨1, 3⟩
        [.conditional (.identifier "d") ⟨2, 2⟩ [] [] true []] [] true [])).length = 3 :=
  ⟨rfl, rfl⟩

/-- Claim C8 (amended): an if statement with both branches yields exactly
one Conditional context (condition and then-statement children under the
true branch, else-statement children under the false branch, else
recorded); the enumerator emits through it one path per combination of
inner branch choices — every true-polarity path first and then every
false-polarity path, at least one of each — and when neither branch
subtree contains a nested Conditional it emits exactly two paths, the
true-polarity path preceding the false-polarity path. -/
theorem if_with_else_true_paths_precede_false (c th e : TsNode) (ln : LineNumbers) :
    (visitNode (.ifStmt c th (some e) ln)).ctxs
      = [.conditional c ln ((visitNode c).app (visitNode th)).ctxs
          ((visitNode e).ctxs) true
          (((visitNode c).app (visitNode th)).vars ++ (visitNode e).vars)] ∧
    pathsThrough (.conditional c ln ((visitNode c).app (visitNode th)).ctxs
          ((visitNode e).ctxs) true
          (((visitNode c).app (visitNode th)).vars ++ (visitNode e).vars))
      = (pathsSeq ((visitNode c).app (visitNode th)).ctxs).map
          (fun p => .branch c ln true :: p)
        ++ (pathsSeq ((visitNode e).ctxs)).map (fun p => .branch c ln false :: p) ∧
    (pathsSeq ((visitNode c).app (visitNode th)).ctxs).map
        (fun p => PathItem.branch c ln true :: p) ≠ [] ∧
    (pathsSeq ((visitNode e).ctxs)).map (fun p => PathItem.branch c ln false :: p) ≠ [] ∧
    ((((visitNode c).app (visitNode th)).ctxs).all (fun x => !ctxIsCond x) = true →
      ((visitNode e).ctxs).all (fun x => !ctxIsCond x) = true →
      ∃ p q,
        pathsThrough (.conditional c ln ((visitNode c).app (visitNode th)).ctxs
            ((visitNode e).ctxs) true
            (((visitNode c).app (visitNode th)).vars ++ (visitNode e).vars))
          = [.branch c ln true :: p, .branch c ln false :: q]) := by
  refine ⟨?_, ?_, ?_, ?_, ?_⟩
  · rw [visitNode.eq_def]
    simp [TsNode.kind, analyzerJumpTableKinds, visitOpt]
  · simp [pathsThrough]
  · simp only [ne_eq, List.map_eq_nil_iff]
    exact pathsSeq_ne_nil _
  · simp only [ne_eq, List.map_eq_nil_iff]
    exact pathsSeq_ne_nil _
  · intro h1 h2
    obtain ⟨p, hp⟩ := pathsSeq_of_assignments _ h1
    obtain ⟨q, hq⟩ := pathsSeq_of_assignments _ h2
    exact ⟨p, q, by simp [pathsThrough, hp, hq]⟩

/-- Claim C8 witness: the exactly-two part applied to
if (a > b) return 1 else return 2, whose branch subtrees hold no nested
Conditional: the enumeration is the true-polarity path followed by the
false-polarity path. -/
theorem if_with_else_true_paths_precede_false_witness :
    ∃ p q,
      pathsThrough (.conditional
          (.binaryExpr (.identifier "a") .GreaterThanToken ">" (.identifier "b")) ⟨2, 4⟩
          (((visitNode (.binaryExpr (.identifier "a") .GreaterThanToken ">" (.identifier "b"))).app
              (visitNode (.returnStmt (some (.numericLiteral "1"))))).ctxs)
          ((visitNode (.returnStmt (some (.numericLiteral "2")))).ctxs) true
          ((((visitNode (.binaryExpr (.identifier "a") .GreaterThanToken ">" (.identifier "b"))).app
              (visitNode (.returnStmt (some (.numericLiteral "1"))))).vars)
            ++ (visitNode (.returnStmt (some (.numericLiteral "2")))).vars))
        = [.branch (.binaryExpr (.identifier "a") .GreaterThanToken ">" (.identifier "b")) ⟨2, 4⟩ true :: p,
           .branch (.binaryExpr (.identifier "a") .GreaterThanToken ">" (.identifier "b")) ⟨2, 4⟩ false :: q] :=
  (if_with_else_true_paths_precede_false
      (.binaryExpr (.identifier "a") .GreaterThanToken ">" (.identifier "b"))
      (.returnStmt (some (.numericLiteral "1")))
      (.returnStmt (some (.numericLiteral "2"))) ⟨2, 4⟩).2.2.2.2 (by rfl) (by rfl)

/-- Claim C9: a node whose kind is not a key of the builder's jumpTable is
warned about as an unspecified node and skipped — no context child, no
symbol-table entry, no error — so the builder never fails fatally on an
unknown node kind. -/
theorem unknown_kind_warns_and_skips (n : TsNode)
    (h : n.kind ∉ analyzerJumpTableKinds) :
    visitNode n = ⟨[], [], [.unspecifiedNode n.getText n.kind]⟩ := by
  rw [visitNode.eq_def]
  simp [h]

/-- Claim C9 witness: a semicolon token, whose kind has no jumpTable
entry. -/
theorem unknown_kind_warns_and_skips_witness :
    (TsNode.other .SemicolonToken ";").kind ∉ analyzerJumpTableKinds ∧
    visitNode (.other .SemicolonToken ";")
      = ⟨[], [], [.unspecifiedNode ";" .SemicolonToken]⟩ :=
  ⟨by decide, unknown_kind_warns_and_skips _ (by decide)⟩

/-- Claim C10: every variable declaration — initialized or not — appends
one Assignment child carrying the (possibly absent) initializer, followed
only by whatever the recursion into the initializer appends; the
declaration enters the symbol table exactly when an explicit type
annotation is present, so an untyped-but-initialized declaration adds an
Assignment context but no symbol-table entry, and an initializer-less
declaration adds an Assignment context with no expression. -/
theorem var_decl_assignment_and_symbol_registration
    (nm : String) (ty : Option String) (init : Option TsNode) :
    visitNode (.varDecl nm ty init)
      = ⟨.assignment nm init :: (visitOpt init).ctxs,
         (match ty with | some t => [(nm, t)] | none => []) ++ (visitOpt init).vars,
         (visitOpt init).warns⟩ := by
  rw [visitNode.eq_def]
  simp [TsNode.kind, analyzerJumpTableKinds]

end ValidPath
